import Mathlib

/-
Verification of the planet-movement repository.

Shallow embedding of the two source files:
  pairs.py    : is_pair, find_pairs (variant with the provider check)
  movement.py : is_pair, find_pairs (variant without the provider check),
                process_pair (geo-aligned overlap compositor)

Modelling conventions:
  - Python float and parsed-timestamp arithmetic is embedded over the exact
    rationals; Python round (round half to even) is pyRound below.
  - A Planet API item is a typed record Item mirroring the nested dict
    fields the source reads.
  - The external shapely predicate Polygon.intersects is modelled by
    polyIntersects below: two simple rings intersect when some pair of
    boundary edges meets, or the first vertex of one ring lies inside the
    other ring (crossing-number containment test).
  - The external raster accessor (gdal) is modelled by the Dataset record
    and ReadAsArray below, per the raster collaborator interface of the
    spec: a read whose window is degenerate or outside the raster extent
    fails (returns none); process_pair surfaces that failure as readError,
    since the source performs no overlap validation of its own.
  - Python truthiness of the three-valued result of is_pair (True, False,
    or the implicit None fall-through) is the function truthy.
-/

/- Section: Python truthiness -/

/-- Truthiness of an optional boolean, as Python evaluates the result of
is_pair in a condition: only the value True is truthy; False and None are
falsy. -/
def truthy : Option Bool → Bool
  | some true => true
  | _ => false

/- Section: Python rounding (movement.py uses int(round(x))) -/

/-- Python 3 round on an exact rational: round half to even. -/
def pyRound (x : ℚ) : ℤ :=
  let f := ⌊x⌋
  let frac := x - f
  if frac < 1/2 then f
  else if 1/2 < frac then f + 1
  else if f % 2 = 0 then f else f + 1

/- Section: model of the external shapely intersects predicate.
   A footprint is the exterior ring of a GeoJSON polygon: a list of
   (lon, lat) vertices with exact rational coordinates. -/

/-- A 2D point with exact rational coordinates. -/
abbrev Pt : Type := ℚ × ℚ

/-- Cross product of the vectors o→a and o→b; its sign is the orientation
of the triple (o, a, b). -/
def cross (o a b : Pt) : ℚ :=
  (a.1 - o.1) * (b.2 - o.2) - (a.2 - o.2) * (b.1 - o.1)

/-- Segment t straddles the supporting line of segment s: the endpoints of
t are on opposite sides of that line, or touch it. -/
def straddles (s t : Pt × Pt) : Bool :=
  decide (cross s.1 s.2 t.1 * cross s.1 s.2 t.2 ≤ 0)

/-- The closed intervals [min a b, max a b] and [min c d, max c d] meet. -/
def overlap1D (a b c d : ℚ) : Bool :=
  decide (min a b ≤ max c d) && decide (min c d ≤ max a b)

/-- The axis-aligned bounding boxes of two segments meet. -/
def bboxOverlap (s t : Pt × Pt) : Bool :=
  overlap1D s.1.1 s.2.1 t.1.1 t.2.1 && overlap1D s.1.2 s.2.2 t.1.2 t.2.2

/-- Two closed segments intersect (shared point, touching included):
bounding boxes meet and each segment straddles the line of the other. -/
def segInter (s t : Pt × Pt) : Bool :=
  bboxOverlap s t && (straddles s t && straddles t s)

/-- The boundary edges of a ring, including the closing edge back to the
first vertex. -/
def edgesOf : List Pt → List (Pt × Pt)
  | [] => []
  | p :: rest => (p :: rest).zip (rest ++ [p])

/-- Crossing-number containment test: parity of the number of ring edges
properly crossed by the horizontal ray going right from q. -/
def pointInRing (q : Pt) (ring : List Pt) : Bool :=
  (edgesOf ring).foldl
    (fun acc e =>
      if (decide (e.1.2 ≤ q.2) != decide (e.2.2 ≤ q.2)) &&
          decide (q.1 < e.1.1 + (e.2.1 - e.1.1) * (q.2 - e.1.2) / (e.2.2 - e.1.2))
      then !acc else acc)
    false

/-- Model of the shapely predicate Polygon(P).intersects(Polygon(Q)) for
simple rings: some pair of boundary edges intersects, or one ring is
entirely inside the other (tested through a representative vertex). -/
def polyIntersects (P Q : List Pt) : Bool :=
  ((edgesOf P).any fun e => (edgesOf Q).any fun f => segInter e f)
    || pointInRing P.headI Q || pointInRing Q.headI P

/- Section: the scene metadata record, mirroring the nested dict fields
   read by is_pair (item properties and item geometry). The acquired
   field is the timestamp parsed by dateutil, in seconds. -/

/-- The properties sub-record of a Planet API item. -/
structure Properties where
  satellite_id : String
  strip_id : String
  provider : String
  acquired : ℚ
  deriving Inhabited

/-- The geometry sub-record of a Planet API item: a GeoJSON geometry type
tag and a list of linear rings (first ring = exterior). -/
structure Geometry where
  type : String
  coordinates : List (List Pt)
  deriving Inhabited

/-- A Planet API item reference, as read by is_pair. -/
structure Item where
  properties : Properties
  geometry : Geometry
  deriving Inhabited

namespace pairs

/-- pairs.py lines 5-41: decide whether two Planet items are a pair.
Returns some false on a failed identity, time or geometry-type check,
some true when the footprints intersect, and none (the Python implicit
None fall-through) when every check passes but the footprints do not
intersect. -/
def is_pair (item_1 item_2 : Item) : Option Bool :=
  let props_1 := item_1.properties
  let props_2 := item_2.properties
  if props_1.satellite_id ≠ props_2.satellite_id ∨
      props_1.strip_id ≠ props_2.strip_id ∨
      props_1.provider ≠ props_2.provider then
    some false
  else
    let t_diff := |props_1.acquired - props_2.acquired|
    if t_diff > 2 then
      some false
    else
      let geom_1 := item_1.geometry
      let geom_2 := item_2.geometry
      if geom_1.type ≠ "Polygon" ∨ geom_2.type ≠ "Polygon" then
        some false
      else
        let poly_1 := geom_1.coordinates.headI
        let poly_2 := geom_2.coordinates.headI
        if polyIntersects poly_1 poly_2 then some true else none

/-- pairs.py lines 44-67: list the pairs among the items, in order: index i
over all items but the last, index j over the later items, keeping (i, j)
when is_pair is truthy. The items argument is the list the source builds
from the search result iterator. -/
def find_pairs (all_items : List Item) : List (Item × Item) :=
  if 1 < all_items.length then
    all_items.dropLast.enum.flatMap fun p =>
      (all_items.drop (p.1 + 1)).filterMap fun item_2 =>
        if truthy (is_pair p.2 item_2) then some (p.2, item_2) else none
  else []

end pairs

namespace movement

/-- movement.py lines 14-49: same pair test as pairs.py, except that the
provider equality check is absent. -/
def is_pair (item_1 item_2 : Item) : Option Bool :=
  let props_1 := item_1.properties
  let props_2 := item_2.properties
  if props_1.satellite_id ≠ props_2.satellite_id ∨
      props_1.strip_id ≠ props_2.strip_id then
    some false
  else
    let t_diff := |props_1.acquired - props_2.acquired|
    if t_diff > 2 then
      some false
    else
      let geom_1 := item_1.geometry
      let geom_2 := item_2.geometry
      if geom_1.type ≠ "Polygon" ∨ geom_2.type ≠ "Polygon" then
        some false
      else
        let poly_1 := geom_1.coordinates.headI
        let poly_2 := geom_2.coordinates.headI
        if polyIntersects poly_1 poly_2 then some true else none

/-- movement.py lines 52-75: identical loop structure to pairs.find_pairs,
calling the movement.py variant of is_pair. -/
def find_pairs (all_items : List Item) : List (Item × Item) :=
  if 1 < all_items.length then
    all_items.dropLast.enum.flatMap fun p =>
      (all_items.drop (p.1 + 1)).filterMap fun item_2 =>
        if truthy (is_pair p.2 item_2) then some (p.2, item_2) else none
  else []

/- Section: the overlap compositor of movement.py (process_pair). -/

/-- A georeferenced raster dataset as the source reads it from gdal:
the six geotransform coefficients gt0..gt5 (originX, pixelWidth,
rowRotation, originY, colRotation, pixelHeight), the raster dimensions,
and the pixel accessor pix band row col (absolute pixel grid, byte
values). -/
structure Dataset where
  gt0 : ℚ
  gt1 : ℚ
  gt2 : ℚ
  gt3 : ℚ
  gt4 : ℚ
  gt5 : ℚ
  RasterXSize : ℕ
  RasterYSize : ℕ
  pix : ℕ → ℕ → ℕ → ℕ

/-- The four-entry ground-bounds list r = [minX, maxY, maxX, minY] built at
movement.py lines 113-120. -/
structure Bnds where
  e0 : ℚ
  e1 : ℚ
  e2 : ℚ
  e3 : ℚ

/-- A pixel window: offsets and size in one raster's own pixel grid
(movement.py lines 127-130 and 134-137). -/
structure Win where
  left : ℤ
  top : ℤ
  cols : ℤ
  rows : ℤ
  deriving DecidableEq

/-- movement.py lines 113-120: ground bounds of a raster from its
geotransform, r = [gt0, gt3, gt0 + gt1*XSize, gt3 + gt5*YSize]. -/
def r_of (ds : Dataset) : Bnds :=
  ⟨ds.gt0, ds.gt3,
    ds.gt0 + ds.gt1 * ds.RasterXSize,
    ds.gt3 + ds.gt5 * ds.RasterYSize⟩

/-- movement.py lines 121-124: componentwise intersection of two
ground-bounds lists. -/
def intersectB (ra rb : Bnds) : Bnds :=
  ⟨max ra.e0 rb.e0, min ra.e1 rb.e1, min ra.e2 rb.e2, max ra.e3 rb.e3⟩

/-- movement.py lines 127-130 (and 134-137): pixel window of the
intersection rectangle in the grid of the raster with bounds r, using
int(round(...)) arithmetic. -/
def windowOf (ds : Dataset) (r inter : Bnds) : Win :=
  let left := pyRound ((inter.e0 - r.e0) / ds.gt1)
  let top := pyRound ((inter.e1 - r.e1) / ds.gt5)
  { left := left, top := top,
    cols := pyRound ((inter.e2 - r.e0) / ds.gt1) - left,
    rows := pyRound ((inter.e3 - r.e1) / ds.gt5) - top }

/-- The ground intersection of the two input rasters of process_pair. -/
def interOf (ds_1 ds_2 : Dataset) : Bnds :=
  intersectB (r_of ds_1) (r_of ds_2)

/-- The intersection window in the pixel grid of the first raster. -/
def window1 (ds_1 ds_2 : Dataset) : Win :=
  windowOf ds_1 (r_of ds_1) (interOf ds_1 ds_2)

/-- The intersection window in the pixel grid of the second raster. -/
def window2 (ds_1 ds_2 : Dataset) : Win :=
  windowOf ds_2 (r_of ds_2) (interOf ds_1 ds_2)

/-- Model of the external raster accessor ds.ReadAsArray(xoff, yoff,
xsize, ysize), per the raster collaborator interface in the spec: the
sampled sub-array when the window is positive and inside the raster
extent, and a failed read (none, surfaced by gdal as an access-window
error that the Python caller hits as a None result) otherwise. -/
def ReadAsArray (ds : Dataset) (xoff yoff xsize ysize : ℤ) :
    Option (ℕ → ℕ → ℕ → ℕ) :=
  if 0 ≤ xoff ∧ 0 ≤ yoff ∧ 0 < xsize ∧ 0 < ysize ∧
      xoff + xsize ≤ (ds.RasterXSize : ℤ) ∧ yoff + ysize ≤ (ds.RasterYSize : ℤ) then
    some fun b r c => ds.pix b (yoff.toNat + r) (xoff.toNat + c)
  else none

/-- How an invocation of process_pair can fail. noOverlap is the
definitive no-overlap error of the error taxonomy in the spec; readError
is a failure of the raster accessor (the None result of a rejected
ReadAsArray call, on which the source then crashes). -/
inductive PPErr where
  | noOverlap : PPErr
  | readError : PPErr
  deriving DecidableEq

/-- The data computed by a successful run of process_pair (movement.py
lines 140-166): the validity mask, the two masked sub-arrays, the four
bands of the composite raster, the alpha plane of the gif frames, the
output dimensions and the output geotransform origin. -/
structure PPOut where
  mask : ℕ → ℕ → ℕ
  array_1 : ℕ → ℕ → ℕ → ℕ
  array_2 : ℕ → ℕ → ℕ → ℕ
  band1 : ℕ → ℕ → ℕ
  band2 : ℕ → ℕ → ℕ
  band3 : ℕ → ℕ → ℕ
  band4 : ℕ → ℕ → ℕ
  gifAlpha : ℕ → ℕ → ℕ
  cols : ℤ
  rows : ℤ
  originX : ℚ
  originY : ℚ

/-- movement.py lines 98-166: the computational core of process_pair.
Windows are computed from the geotransforms, both sub-arrays are read (a
rejected read aborts the run: the source has no overlap check of its own
and never raises noOverlap), the validity mask is the product of the two
alpha-equals-255 indicator arrays, both arrays are multiplied by the mask,
and the output bands and geotransform origin are assembled. -/
def process_pair (ds_1 ds_2 : Dataset) : Except PPErr PPOut :=
  let w1 := window1 ds_1 ds_2
  let w2 := window2 ds_1 ds_2
  match ReadAsArray ds_1 w1.left w1.top w1.cols w1.rows,
      ReadAsArray ds_2 w2.left w2.top w2.cols w2.rows with
  | some array_1, some array_2 =>
    let mask : ℕ → ℕ → ℕ := fun r c =>
      (if array_1 3 r c = 255 then 1 else 0) *
        (if array_2 3 r c = 255 then 1 else 0)
    let marr_1 : ℕ → ℕ → ℕ → ℕ := fun b r c => array_1 b r c * mask r c
    let marr_2 : ℕ → ℕ → ℕ → ℕ := fun b r c => array_2 b r c * mask r c
    let originX := ds_1.gt0 + (w1.left : ℚ) * ds_1.gt1 + (w1.top : ℚ) * ds_1.gt2
    let originY := ds_1.gt3 + (w1.left : ℚ) * ds_1.gt4 + (w1.top : ℚ) * ds_1.gt5
    Except.ok
      { mask := mask, array_1 := marr_1, array_2 := marr_2,
        band1 := fun r c => marr_1 0 r c,
        band2 := fun r c => marr_2 0 r c,
        band3 := fun r c => marr_2 0 r c,
        band4 := fun r c => mask r c * 255,
        gifAlpha := fun r c => mask r c * 255,
        cols := w1.cols, rows := w1.rows,
        originX := originX, originY := originY }
  | _, _ => Except.error PPErr.readError

end movement

/- Section: helper recursors used to characterise find_pairs. -/

/-- Structural form of the double loop of find_pairs: for each item, pair
it with every later item that passes the test, then recurse on the tail. -/
def findPairsRec : List Item → List (Item × Item)
  | [] => []
  | item_1 :: rest =>
    (rest.filterMap fun item_2 =>
      if truthy (pairs.is_pair item_1 item_2) then some (item_1, item_2) else none)
      ++ findPairsRec rest

/-- All index-ordered combinations of two distinct elements of a list, in
enumeration order: the head with each later element, then the tail. -/
def allCombos {α : Type} : List α → List (α × α)
  | [] => []
  | x :: xs => (xs.map fun y => (x, y)) ++ allCombos xs

/- Section: concrete data used by witnesses and counterexamples. -/

/-- A triangular footprint with vertices (0,0), (4,0), (0,4). -/
def triP : List Pt := [(0, 0), (4, 0), (0, 4)]

/-- A scene item: ids as the upstream catalog would assign them, acquired
at t = 0 s, triangular polygon footprint. -/
def itemA : Item :=
  { properties :=
      { satellite_id := "0f22", strip_id := "2267", provider := "planetscope",
        acquired := 0 },
    geometry := { type := "Polygon", coordinates := [triP] } }

/-- Same identity as itemA, acquired exactly 2 s later, same footprint. -/
def itemB : Item :=
  { properties :=
      { satellite_id := "0f22", strip_id := "2267", provider := "planetscope",
        acquired := 2 },
    geometry := { type := "Polygon", coordinates := [triP] } }

/-- An item whose geometry type tag is Point instead of Polygon. -/
def itemP : Item :=
  { properties :=
      { satellite_id := "0f22", strip_id := "2267", provider := "planetscope",
        acquired := 0 },
    geometry := { type := "Point", coordinates := [[(0, 0)]] } }

/-- A second Point-geometry item with the same identity as itemP. -/
def itemQ : Item :=
  { properties :=
      { satellite_id := "0f22", strip_id := "2267", provider := "planetscope",
        acquired := 0 },
    geometry := { type := "Point", coordinates := [[(1, 1)]] } }

/-- A constant all-255 sampled sub-array (fully opaque alpha). -/
def mArr255 : ℕ → ℕ → ℕ → ℕ := fun _ _ _ => 255

/-- A 2 by 2 north-up raster at origin (0,0), pixel size 1, all bands 255. -/
def dsW1 : movement.Dataset := ⟨0, 1, 0, 0, 0, -1, 2, 2, fun _ _ _ => 255⟩

/-- A second raster identical to dsW1. -/
def dsW2 : movement.Dataset := ⟨0, 1, 0, 0, 0, -1, 2, 2, fun _ _ _ => 255⟩

/-- The output record of process_pair on the pair (dsW1, dsW2). -/
def moutc : movement.PPOut where
  mask := fun _ _ => 1
  array_1 := fun _ _ _ => 255
  array_2 := fun _ _ _ => 255
  band1 := fun _ _ => 255
  band2 := fun _ _ => 255
  band3 := fun _ _ => 255
  band4 := fun _ _ => 255
  gifAlpha := fun _ _ => 255
  cols := 2
  rows := 2
  originX := (0 : ℚ) + ((0 : ℤ) : ℚ) * 1 + ((0 : ℤ) : ℚ) * 0
  originY := (0 : ℚ) + ((0 : ℤ) : ℚ) * 0 + ((0 : ℤ) : ℚ) * (-1)

/-- A 2 by 2 raster at origin (0,0): ground bounds [0,0] to [2,-2]. -/
def dsN1 : movement.Dataset := ⟨0, 1, 0, 0, 0, -1, 2, 2, fun _ _ _ => 255⟩

/-- A 2 by 2 raster at origin (100,0): disjoint from dsN1 on the ground. -/
def dsN2 : movement.Dataset := ⟨100, 1, 0, 0, 0, -1, 2, 2, fun _ _ _ => 255⟩

/-- A 10 by 1 raster at origin (0,0), pixel size 1. -/
def dsC1 : movement.Dataset := ⟨0, 1, 0, 0, 0, -1, 10, 1, fun _ _ _ => 255⟩

/-- A 9 by 1 raster at origin (1/2, 0): same pixel size as dsC1 but offset
by half a pixel, so the two grids are not aligned. -/
def dsC2 : movement.Dataset := ⟨1/2, 1, 0, 0, 0, -1, 9, 1, fun _ _ _ => 255⟩

/-- A 6 by 5 raster at origin (0,0), pixel size 1. -/
def dsA1 : movement.Dataset := ⟨0, 1, 0, 0, 0, -1, 6, 5, fun _ _ _ => 255⟩

/-- A 7 by 6 raster at origin (2,-1): grid-aligned with dsA1 (origin
offset by whole pixels). -/
def dsA2 : movement.Dataset := ⟨2, 1, 0, -1, 0, -1, 7, 6, fun _ _ _ => 255⟩

/-- A 4 by 6 raster with fractional pixel size 1/2 by -1/3. -/
def dsG : movement.Dataset := ⟨5, 1/2, 0, 7, 0, -1/3, 4, 6, fun _ _ _ => 0⟩

/- Section: basic lemmas about truthiness and the intersects model. -/

lemma truthy_eq_true_iff (o : Option Bool) : truthy o = true ↔ o = some true := by
  cases o with
  | none => simp [truthy]
  | some b => cases b <;> simp [truthy]

lemma overlap1D_comm (a b c d : ℚ) : overlap1D a b c d = overlap1D c d a b := by
  unfold overlap1D
  exact Bool.and_comm _ _

lemma bboxOverlap_comm (s t : Pt × Pt) : bboxOverlap s t = bboxOverlap t s := by
  unfold bboxOverlap
  rw [overlap1D_comm s.1.1, overlap1D_comm s.1.2]

lemma segInter_comm (s t : Pt × Pt) : segInter s t = segInter t s := by
  unfold segInter
  rw [bboxOverlap_comm, Bool.and_comm (straddles s t)]

lemma bool_eq_of_iff {x y : Bool} (h : x = true ↔ y = true) : x = y := by
  revert h
  have : ∀ x y : Bool, ((x = true ↔ y = true) → x = y) := by decide
  exact this x y

lemma any_segInter_comm (es fs : List (Pt × Pt)) :
    (es.any fun e => fs.any fun f => segInter e f) =
      (fs.any fun e => es.any fun f => segInter e f) := by
  apply bool_eq_of_iff
  simp only [List.any_eq_true]
  constructor
  · rintro ⟨e, he, f, hf, h⟩
    exact ⟨f, hf, e, he, by rw [segInter_comm]; exact h⟩
  · rintro ⟨e, he, f, hf, h⟩
    exact ⟨f, hf, e, he, by rw [segInter_comm]; exact h⟩

lemma polyIntersects_comm (P Q : List Pt) :
    polyIntersects P Q = polyIntersects Q P := by
  unfold polyIntersects
  rw [any_segInter_comm, Bool.or_assoc, Bool.or_comm (pointInRing P.headI Q),
    ← Bool.or_assoc]

/- Section: characterisation of pairs.is_pair. -/

lemma is_pair_eq_some_true_iff (i1 i2 : Item) :
    pairs.is_pair i1 i2 = some true ↔
      (i1.properties.satellite_id = i2.properties.satellite_id ∧
        i1.properties.strip_id = i2.properties.strip_id ∧
        i1.properties.provider = i2.properties.provider ∧
        |i1.properties.acquired - i2.properties.acquired| ≤ 2 ∧
        i1.geometry.type = "Polygon" ∧ i2.geometry.type = "Polygon" ∧
        polyIntersects i1.geometry.coordinates.headI i2.geometry.coordinates.headI
          = true) := by
  unfold pairs.is_pair
  dsimp only
  split_ifs with h1 h2 h3 h4
  · simp only [Option.some.injEq]
    constructor
    · intro h; exact absurd h (by decide)
    · rintro ⟨e1, e2, e3, -⟩
      exact absurd h1 (by push_neg; exact ⟨e1, e2, e3⟩)
  · simp only [Option.some.injEq]
    constructor
    · intro h; exact absurd h (by decide)
    · rintro ⟨-, -, -, ht, -⟩
      exact absurd h2 (not_lt.mpr ht)
  · simp only [Option.some.injEq]
    constructor
    · intro h; exact absurd h (by decide)
    · rintro ⟨-, -, -, -, hg1, hg2, -⟩
      exact absurd h3 (by push_neg; exact ⟨hg1, hg2⟩)
  · push_neg at h1 h3
    simp only [true_iff]
    exact ⟨h1.1, h1.2.1, h1.2.2, not_lt.mp h2, h3.1, h3.2, h4⟩
  · constructor
    · intro h; exact absurd h (by simp)
    · rintro ⟨-, -, -, -, -, -, hint⟩
      exact absurd hint h4

lemma is_pair_eq_none_iff (i1 i2 : Item) :
    pairs.is_pair i1 i2 = none ↔
      (i1.properties.satellite_id = i2.properties.satellite_id ∧
        i1.properties.strip_id = i2.properties.strip_id ∧
        i1.properties.provider = i2.properties.provider ∧
        |i1.properties.acquired - i2.properties.acquired| ≤ 2 ∧
        i1.geometry.type = "Polygon" ∧ i2.geometry.type = "Polygon" ∧
        polyIntersects i1.geometry.coordinates.headI i2.geometry.coordinates.headI
          = false) := by
  unfold pairs.is_pair
  dsimp only
  split_ifs with h1 h2 h3 h4
  · constructor
    · intro h; exact absurd h (by simp)
    · rintro ⟨e1, e2, e3, -⟩
      exact absurd h1 (by push_neg; exact ⟨e1, e2, e3⟩)
  · constructor
    · intro h; exact absurd h (by simp)
    · rintro ⟨-, -, -, ht, -⟩
      exact absurd h2 (not_lt.mpr ht)
  · constructor
    · intro h; exact absurd h (by simp)
    · rintro ⟨-, -, -, -, hg1, hg2, -⟩
      exact absurd h3 (by push_neg; exact ⟨hg1, hg2⟩)
  · constructor
    · intro h; exact absurd h (by simp)
    · rintro ⟨-, -, -, -, -, -, hint⟩
      rw [h4] at hint
      exact absurd hint (by decide)
  · push_neg at h1 h3
    simp only [true_iff]
    exact ⟨h1.1, h1.2.1, h1.2.2, not_lt.mp h2, h3.1, h3.2,
      Bool.not_eq_true _ ▸ h4⟩

lemma is_pair_comm (i1 i2 : Item) :
    pairs.is_pair i1 i2 = pairs.is_pair i2 i1 := by
  unfold pairs.is_pair
  dsimp only
  by_cases h1 : i1.properties.satellite_id ≠ i2.properties.satellite_id ∨
      i1.properties.strip_id ≠ i2.properties.strip_id ∨
      i1.properties.provider ≠ i2.properties.provider
  · have h1r : i2.properties.satellite_id ≠ i1.properties.satellite_id ∨
        i2.properties.strip_id ≠ i1.properties.strip_id ∨
        i2.properties.provider ≠ i1.properties.provider := by tauto
    rw [if_pos h1, if_pos h1r]
  · have h1r : ¬(i2.properties.satellite_id ≠ i1.properties.satellite_id ∨
        i2.properties.strip_id ≠ i1.properties.strip_id ∨
        i2.properties.provider ≠ i1.properties.provider) := by tauto
    rw [if_neg h1, if_neg h1r]
    by_cases h2 : |i1.properties.acquired - i2.properties.acquired| > 2
    · have h2r : |i2.properties.acquired - i1.properties.acquired| > 2 := by
        rw [abs_sub_comm]; exact h2
      rw [if_pos h2, if_pos h2r]
    · have h2r : ¬(|i2.properties.acquired - i1.properties.acquired| > 2) := by
        rw [abs_sub_comm]; exact h2
      rw [if_neg h2, if_neg h2r]
      by_cases h3 : i1.geometry.type ≠ "Polygon" ∨ i2.geometry.type ≠ "Polygon"
      · have h3r : i2.geometry.type ≠ "Polygon" ∨ i1.geometry.type ≠ "Polygon" := by
          tauto
        rw [if_pos h3, if_pos h3r]
      · have h3r : ¬(i2.geometry.type ≠ "Polygon" ∨ i1.geometry.type ≠ "Polygon") := by
          tauto
        rw [if_neg h3, if_neg h3r]
        by_cases h4 : polyIntersects i1.geometry.coordinates.headI
            i2.geometry.coordinates.headI = true
        · have h4r : polyIntersects i2.geometry.coordinates.headI
              i1.geometry.coordinates.headI = true := by
            rw [polyIntersects_comm]; exact h4
          rw [if_pos h4, if_pos h4r]
        · have h4r : ¬(polyIntersects i2.geometry.coordinates.headI
              i1.geometry.coordinates.headI = true) := by
            rw [polyIntersects_comm]; exact h4
          rw [if_neg h4, if_neg h4r]

/- Section: characterisation of pairs.find_pairs. -/

lemma enumFrom_shift {α : Type} (ys : List α) (n : ℕ) :
    List.enumFrom (n + 1) ys = (List.enumFrom n ys).map fun p => (p.1 + 1, p.2) := by
  induction ys generalizing n with
  | nil => simp
  | cons y ys ih => simp [List.enumFrom_cons, ih]

lemma enum_cons_shift {α : Type} (a : α) (ys : List α) :
    (a :: ys).enum = (0, a) :: ys.enum.map fun p => (p.1 + 1, p.2) := by
  rw [List.enum_cons]
  show _ = (0, a) :: (List.enumFrom 0 ys).map fun p => (p.1 + 1, p.2)
  rw [← enumFrom_shift]

lemma find_pairs_body_eq_rec (l : List Item) :
    (l.dropLast.enum.flatMap fun p =>
        (l.drop (p.1 + 1)).filterMap fun item_2 =>
          if truthy (pairs.is_pair p.2 item_2) then some (p.2, item_2) else none) =
      findPairsRec l := by
  induction l with
  | nil => simp [findPairsRec]
  | cons x xs ih =>
    cases xs with
    | nil => simp [findPairsRec]
    | cons y t =>
      rw [List.dropLast_cons₂, enum_cons_shift, List.flatMap_cons, List.flatMap_map]
      rw [findPairsRec]
      congr 1

lemma find_pairs_eq_rec (l : List Item) : pairs.find_pairs l = findPairsRec l := by
  cases l with
  | nil => simp [pairs.find_pairs, findPairsRec]
  | cons x xs =>
    cases xs with
    | nil => simp [pairs.find_pairs, findPairsRec]
    | cons y t =>
      rw [pairs.find_pairs, if_pos (by simp)]
      exact find_pairs_body_eq_rec (x :: y :: t)

lemma filterMap_pair_eq_filter_map (x : Item) (xs : List Item) :
    (xs.filterMap fun item_2 =>
        if truthy (pairs.is_pair x item_2) then some (x, item_2) else none) =
      (xs.map fun y => (x, y)).filter fun p => truthy (pairs.is_pair p.1 p.2) := by
  induction xs with
  | nil => simp
  | cons y ys ih =>
    rw [List.filterMap_cons, List.map_cons, List.filter_cons]
    cases h : truthy (pairs.is_pair x y) with
    | true => simp [h, ih]
    | false => simp [h, ih]

lemma findPairsRec_eq_filter (l : List Item) :
    findPairsRec l =
      (allCombos l).filter fun p => truthy (pairs.is_pair p.1 p.2) := by
  induction l with
  | nil => simp [findPairsRec, allCombos]
  | cons x xs ih =>
    rw [findPairsRec, allCombos, List.filter_append, ih,
      filterMap_pair_eq_filter_map]

lemma allCombos_map {α β : Type} (f : α → β) (l : List α) :
    allCombos (l.map f) = (allCombos l).map fun p => (f p.1, f p.2) := by
  induction l with
  | nil => simp [allCombos]
  | cons x xs ih => simp [allCombos, ih, List.map_map, Function.comp_def]

lemma range_map_getD {α : Type} (l : List α) (d : α) :
    (List.range l.length).map (fun i => l.getD i d) = l := by
  induction l with
  | nil => simp
  | cons x xs ih =>
    rw [List.length_cons, List.range_succ_eq_map, List.map_cons, List.map_map]
    simp only [List.getD_cons_zero, Function.comp_def, List.getD_cons_succ]
    rw [ih]

lemma allCombos_length {α : Type} (l : List α) :
    2 * (allCombos l).length = l.length * (l.length - 1) := by
  induction l with
  | nil => simp [allCombos]
  | cons x xs ih =>
    rw [allCombos, List.length_append, List.length_map, List.length_cons]
    have key : (xs.length + 1) * (xs.length + 1 - 1) =
        xs.length * (xs.length - 1) + 2 * xs.length := by
      cases xs.length with
      | zero => rfl
      | succ m => simp only [Nat.add_sub_cancel]; ring
    omega

lemma allCombos_mem_lt (l : List ℕ) (hs : List.Pairwise (· < ·) l) :
    ∀ p ∈ allCombos l, p.1 < p.2 := by
  induction l with
  | nil => simp [allCombos]
  | cons x xs ih =>
    rw [List.pairwise_cons] at hs
    intro p hp
    rw [allCombos, List.mem_append] at hp
    rcases hp with hp | hp
    · obtain ⟨y, hy, rfl⟩ := List.mem_map.mp hp
      exact hs.1 y hy
    · exact ih hs.2 p hp

lemma allCombos_fst_mem {α : Type} (l : List α) :
    ∀ p ∈ allCombos l, p.1 ∈ l := by
  induction l with
  | nil => simp [allCombos]
  | cons x xs ih =>
    intro p hp
    rw [allCombos, List.mem_append] at hp
    rcases hp with hp | hp
    · obtain ⟨y, hy, rfl⟩ := List.mem_map.mp hp
      exact List.mem_cons_self x xs
    · exact List.mem_cons_of_mem x (ih p hp)

lemma allCombos_nodup {α : Type} (l : List α) (hn : l.Nodup) :
    (allCombos l).Nodup := by
  induction l with
  | nil => simp [allCombos]
  | cons x xs ih =>
    rw [List.nodup_cons] at hn
    rw [allCombos, List.nodup_append]
    refine ⟨List.Nodup.map ?_ hn.2, ih hn.2, ?_⟩
    · intro a b hab
      exact (Prod.mk.injEq x a x b).mp hab |>.2
    · intro p hp hp2
      obtain ⟨y, hy, rfl⟩ := List.mem_map.mp hp
      exact hn.1 (allCombos_fst_mem xs _ hp2)

/- Section: arithmetic lemmas for the window computation. -/

lemma pyRound_intCast (k : ℤ) : pyRound ((k : ℚ)) = k := by
  unfold pyRound
  dsimp only
  rw [Int.floor_intCast, sub_self]
  rw [if_pos (by norm_num)]

lemma pyRound_div_eq (x p : ℚ) (k : ℤ) (hp : p ≠ 0) (hx : x = (k : ℚ) * p) :
    pyRound (x / p) = k := by
  rw [hx, mul_div_cancel_right₀ _ hp, pyRound_intCast]

lemma max_mul_nonpos (x y q : ℚ) (hq : q ≤ 0) : max x y * q = min (x * q) (y * q) := by
  have h := max_mul_of_nonneg x y (neg_nonneg.mpr hq)
  calc max x y * q = -(max x y * -q) := by ring
    _ = -(max (x * -q) (y * -q)) := by rw [h]
    _ = min (-(x * -q)) (-(y * -q)) := (min_neg_neg _ _).symm
    _ = min (x * q) (y * q) := by congr 1 <;> ring

lemma min_mul_nonpos (x y q : ℚ) (hq : q ≤ 0) : min x y * q = max (x * q) (y * q) := by
  have h := min_mul_of_nonneg x y (neg_nonneg.mpr hq)
  calc min x y * q = -(min x y * -q) := by ring
    _ = -(min (x * -q) (y * -q)) := by rw [h]
    _ = max (-(x * -q)) (-(y * -q)) := (max_neg_neg _ _).symm
    _ = max (x * q) (y * q) := by congr 1 <;> ring

lemma maxOffset (o p : ℚ) (hp : 0 ≤ p) (j : ℤ) :
    max o (o + (j : ℚ) * p) - o = ((max 0 j : ℤ) : ℚ) * p := by
  have h : max o (o + (j : ℚ) * p) = o + max 0 ((j : ℚ) * p) := by
    rw [← max_add_add_left, add_zero]
  rw [h, add_sub_cancel_left, Int.cast_max, Int.cast_zero,
    max_mul_of_nonneg _ _ hp, zero_mul]

lemma minOffset (o p : ℚ) (hp : 0 ≤ p) (a b : ℤ) :
    min (o + (a : ℚ) * p) (o + (b : ℚ) * p) - o = ((min a b : ℤ) : ℚ) * p := by
  rw [min_add_add_left, add_sub_cancel_left, Int.cast_min,
    min_mul_of_nonneg _ _ hp]

lemma maxOffsetNeg (o q : ℚ) (hq : q ≤ 0) (m : ℤ) :
    min o (o + (m : ℚ) * q) - o = ((max 0 m : ℤ) : ℚ) * q := by
  have h : min o (o + (m : ℚ) * q) = o + min 0 ((m : ℚ) * q) := by
    rw [← min_add_add_left, add_zero]
  rw [h, add_sub_cancel_left, Int.cast_max, Int.cast_zero,
    max_mul_nonpos _ _ _ hq, zero_mul]

lemma minOffsetNeg (o q : ℚ) (hq : q ≤ 0) (a b : ℤ) :
    max (o + (a : ℚ) * q) (o + (b : ℚ) * q) - o = ((min a b : ℤ) : ℚ) * q := by
  rw [max_add_add_left, add_sub_cancel_left, Int.cast_min,
    min_mul_nonpos _ _ _ hq]

/- Section: claim theorems about the pixel-window computation. -/

/-- C7: for every raster with positive pixelWidth, negative pixelHeight
and positive width and height, the pixel-window computation applied to the
raster against its own full ground bounds yields left = 0, top = 0,
cols = rasterWidth and rows = rasterHeight. -/
theorem windowOf_self_bounds (ds : movement.Dataset)
    (hpw : 0 < ds.gt1) (hph : ds.gt5 < 0)
    (hX : 0 < ds.RasterXSize) (hY : 0 < ds.RasterYSize) :
    movement.windowOf ds (movement.r_of ds) (movement.r_of ds) =
      { left := 0, top := 0,
        cols := (ds.RasterXSize : ℤ), rows := (ds.RasterYSize : ℤ) } := by
  have hp0 : ds.gt1 ≠ 0 := ne_of_gt hpw
  have hq0 : ds.gt5 ≠ 0 := ne_of_lt hph
  have hA : (movement.r_of ds).e0 - (movement.r_of ds).e0
      = (((0 : ℤ)) : ℚ) * ds.gt1 := by push_cast; ring
  have hB : (movement.r_of ds).e1 - (movement.r_of ds).e1
      = (((0 : ℤ)) : ℚ) * ds.gt5 := by push_cast; ring
  have hC : (movement.r_of ds).e2 - (movement.r_of ds).e0
      = (((ds.RasterXSize : ℤ)) : ℚ) * ds.gt1 := by
    show ds.gt0 + ds.gt1 * (ds.RasterXSize : ℚ) - ds.gt0 = _
    push_cast; ring
  have hD : (movement.r_of ds).e3 - (movement.r_of ds).e1
      = (((ds.RasterYSize : ℤ)) : ℚ) * ds.gt5 := by
    show ds.gt3 + ds.gt5 * (ds.RasterYSize : ℚ) - ds.gt3 = _
    push_cast; ring
  unfold movement.windowOf
  dsimp only
  rw [pyRound_div_eq _ _ _ hp0 hA, pyRound_div_eq _ _ _ hq0 hB,
    pyRound_div_eq _ _ _ hp0 hC, pyRound_div_eq _ _ _ hq0 hD]
  norm_num

/-- Witness for windowOf_self_bounds at a concrete raster with fractional
pixel sizes. -/
theorem windowOf_self_bounds_witness :
    (0 : ℚ) < dsG.gt1 ∧ dsG.gt5 < 0 ∧ 0 < dsG.RasterXSize ∧ 0 < dsG.RasterYSize ∧
      movement.windowOf dsG (movement.r_of dsG) (movement.r_of dsG) =
        { left := 0, top := 0,
          cols := (dsG.RasterXSize : ℤ), rows := (dsG.RasterYSize : ℤ) } :=
  ⟨by norm_num [dsG], by norm_num [dsG], by norm_num [dsG], by norm_num [dsG],
    windowOf_self_bounds dsG (by norm_num [dsG]) (by norm_num [dsG])
      (by norm_num [dsG]) (by norm_num [dsG])⟩

/-- C6 counterexample: two rasters with the same pixel size but origins
offset by half a pixel. The window of the first raster has cols = 10, the
window of the second has cols = 9, so the claimed invariant fails. -/
theorem window_dims_differ_counterexample :
    (movement.window1 dsC1 dsC2).cols = 10 ∧
      (movement.window2 dsC1 dsC2).cols = 9 ∧
      ¬((movement.window1 dsC1 dsC2).cols = (movement.window2 dsC1 dsC2).cols ∧
        (movement.window1 dsC1 dsC2).rows = (movement.window2 dsC1 dsC2).rows) := by
  have h1 : movement.window1 dsC1 dsC2 = ⟨0, 0, 10, 1⟩ := by
    norm_num [movement.window1, movement.windowOf, movement.interOf,
      movement.intersectB, movement.r_of, dsC1, dsC2, pyRound, max_def, min_def]
  have h2 : movement.window2 dsC1 dsC2 = ⟨0, 0, 9, 1⟩ := by
    norm_num [movement.window2, movement.windowOf, movement.interOf,
      movement.intersectB, movement.r_of, dsC1, dsC2, pyRound, max_def, min_def]
  rw [h1, h2]
  refine ⟨rfl, rfl, ?_⟩
  rintro ⟨hc, -⟩
  exact absurd hc (by decide)

/-- C6 amended: when the two rasters share pixel width and pixel height
(positive width, negative height) and their origins differ by whole-pixel
multiples (grid-aligned rasters), the cols and rows of the overlap window
computed from either geotransform coincide. -/
theorem window_dims_agree_of_aligned (ds_1 ds_2 : movement.Dataset) (j m : ℤ)
    (hp : 0 < ds_1.gt1) (hq : ds_1.gt5 < 0)
    (hpw : ds_2.gt1 = ds_1.gt1) (hph : ds_2.gt5 = ds_1.gt5)
    (hox : ds_2.gt0 = ds_1.gt0 + (j : ℚ) * ds_1.gt1)
    (hoy : ds_2.gt3 = ds_1.gt3 + (m : ℚ) * ds_1.gt5) :
    (movement.window1 ds_1 ds_2).cols = (movement.window2 ds_1 ds_2).cols ∧
      (movement.window1 ds_1 ds_2).rows = (movement.window2 ds_1 ds_2).rows := by
  have hp0 : ds_1.gt1 ≠ 0 := ne_of_gt hp
  have hq0 : ds_1.gt5 ≠ 0 := ne_of_lt hq
  have hr1e0 : (movement.r_of ds_1).e0 = ds_1.gt0 := rfl
  have hr1e1 : (movement.r_of ds_1).e1 = ds_1.gt3 := rfl
  have hr1e2 : (movement.r_of ds_1).e2
      = ds_1.gt0 + ((ds_1.RasterXSize : ℤ) : ℚ) * ds_1.gt1 := by
    show ds_1.gt0 + ds_1.gt1 * (ds_1.RasterXSize : ℚ) = _
    push_cast; ring
  have hr1e3 : (movement.r_of ds_1).e3
      = ds_1.gt3 + ((ds_1.RasterYSize : ℤ) : ℚ) * ds_1.gt5 := by
    show ds_1.gt3 + ds_1.gt5 * (ds_1.RasterYSize : ℚ) = _
    push_cast; ring
  have hr2e0 : (movement.r_of ds_2).e0 = ds_1.gt0 + (j : ℚ) * ds_1.gt1 := hox
  have hr2e1 : (movement.r_of ds_2).e1 = ds_1.gt3 + (m : ℚ) * ds_1.gt5 := hoy
  have hr2e2 : (movement.r_of ds_2).e2
      = ds_1.gt0 + ((j + (ds_2.RasterXSize : ℤ) : ℤ) : ℚ) * ds_1.gt1 := by
    show ds_2.gt0 + ds_2.gt1 * (ds_2.RasterXSize : ℚ) = _
    rw [hox, hpw]; push_cast; ring
  have hr2e3 : (movement.r_of ds_2).e3
      = ds_1.gt3 + ((m + (ds_2.RasterYSize : ℤ) : ℤ) : ℚ) * ds_1.gt5 := by
    show ds_2.gt3 + ds_2.gt5 * (ds_2.RasterYSize : ℚ) = _
    rw [hoy, hph]; push_cast; ring
  have hie0 : (movement.interOf ds_1 ds_2).e0 - (movement.r_of ds_1).e0
      = ((max 0 j : ℤ) : ℚ) * ds_1.gt1 := by
    show max (movement.r_of ds_1).e0 (movement.r_of ds_2).e0
        - (movement.r_of ds_1).e0 = _
    rw [hr1e0, hr2e0]
    exact maxOffset _ _ hp.le j
  have hie2 : (movement.interOf ds_1 ds_2).e2 - (movement.r_of ds_1).e0
      = ((min (ds_1.RasterXSize : ℤ) (j + (ds_2.RasterXSize : ℤ)) : ℤ) : ℚ)
          * ds_1.gt1 := by
    show min (movement.r_of ds_1).e2 (movement.r_of ds_2).e2
        - (movement.r_of ds_1).e0 = _
    rw [hr1e0, hr1e2, hr2e2]
    exact minOffset _ _ hp.le _ _
  have hie1 : (movement.interOf ds_1 ds_2).e1 - (movement.r_of ds_1).e1
      = ((max 0 m : ℤ) : ℚ) * ds_1.gt5 := by
    show min (movement.r_of ds_1).e1 (movement.r_of ds_2).e1
        - (movement.r_of ds_1).e1 = _
    rw [hr1e1, hr2e1]
    exact maxOffsetNeg _ _ hq.le m
  have hie3 : (movement.interOf ds_1 ds_2).e3 - (movement.r_of ds_1).e1
      = ((min (ds_1.RasterYSize : ℤ) (m + (ds_2.RasterYSize : ℤ)) : ℤ) : ℚ)
          * ds_1.gt5 := by
    show max (movement.r_of ds_1).e3 (movement.r_of ds_2).e3
        - (movement.r_of ds_1).e1 = _
    rw [hr1e1, hr1e3, hr2e3]
    exact minOffsetNeg _ _ hq.le _ _
  have hie0b : (movement.interOf ds_1 ds_2).e0 - (movement.r_of ds_2).e0
      = ((max 0 j - j : ℤ) : ℚ) * ds_1.gt1 := by
    have hstep : (movement.interOf ds_1 ds_2).e0 - (movement.r_of ds_2).e0
        = ((movement.interOf ds_1 ds_2).e0 - (movement.r_of ds_1).e0)
            - (j : ℚ) * ds_1.gt1 := by
      rw [hr1e0, hr2e0]; ring
    rw [hstep, hie0]; push_cast; ring
  have hie2b : (movement.interOf ds_1 ds_2).e2 - (movement.r_of ds_2).e0
      = ((min (ds_1.RasterXSize : ℤ) (j + (ds_2.RasterXSize : ℤ)) - j : ℤ) : ℚ)
          * ds_1.gt1 := by
    have hstep : (movement.interOf ds_1 ds_2).e2 - (movement.r_of ds_2).e0
        = ((movement.interOf ds_1 ds_2).e2 - (movement.r_of ds_1).e0)
            - (j : ℚ) * ds_1.gt1 := by
      rw [hr1e0, hr2e0]; ring
    rw [hstep, hie2]; push_cast; ring
  have hie1b : (movement.interOf ds_1 ds_2).e1 - (movement.r_of ds_2).e1
      = ((max 0 m - m : ℤ) : ℚ) * ds_1.gt5 := by
    have hstep : (movement.interOf ds_1 ds_2).e1 - (movement.r_of ds_2).e1
        = ((movement.interOf ds_1 ds_2).e1 - (movement.r_of ds_1).e1)
            - (m : ℚ) * ds_1.gt5 := by
      rw [hr1e1, hr2e1]; ring
    rw [hstep, hie1]; push_cast; ring
  have hie3b : (movement.interOf ds_1 ds_2).e3 - (movement.r_of ds_2).e1
      = ((min (ds_1.RasterYSize : ℤ) (m + (ds_2.RasterYSize : ℤ)) - m : ℤ) : ℚ)
          * ds_1.gt5 := by
    have hstep : (movement.interOf ds_1 ds_2).e3 - (movement.r_of ds_2).e1
        = ((movement.interOf ds_1 ds_2).e3 - (movement.r_of ds_1).e1)
            - (m : ℚ) * ds_1.gt5 := by
      rw [hr1e1, hr2e1]; ring
    rw [hstep, hie3]; push_cast; ring
  constructor
  · show pyRound (((movement.interOf ds_1 ds_2).e2 - (movement.r_of ds_1).e0)
          / ds_1.gt1)
        - pyRound (((movement.interOf ds_1 ds_2).e0 - (movement.r_of ds_1).e0)
          / ds_1.gt1)
      = pyRound (((movement.interOf ds_1 ds_2).e2 - (movement.r_of ds_2).e0)
          / ds_2.gt1)
        - pyRound (((movement.interOf ds_1 ds_2).e0 - (movement.r_of ds_2).e0)
          / ds_2.gt1)
    rw [hpw, pyRound_div_eq _ _ _ hp0 hie2, pyRound_div_eq _ _ _ hp0 hie0,
      pyRound_div_eq _ _ _ hp0 hie2b, pyRound_div_eq _ _ _ hp0 hie0b]
    omega
  · show pyRound (((movement.interOf ds_1 ds_2).e3 - (movement.r_of ds_1).e1)
          / ds_1.gt5)
        - pyRound (((movement.interOf ds_1 ds_2).e1 - (movement.r_of ds_1).e1)
          / ds_1.gt5)
      = pyRound (((movement.interOf ds_1 ds_2).e3 - (movement.r_of ds_2).e1)
          / ds_2.gt5)
        - pyRound (((movement.interOf ds_1 ds_2).e1 - (movement.r_of ds_2).e1)
          / ds_2.gt5)
    rw [hph, pyRound_div_eq _ _ _ hq0 hie3, pyRound_div_eq _ _ _ hq0 hie1,
      pyRound_div_eq _ _ _ hq0 hie3b, pyRound_div_eq _ _ _ hq0 hie1b]
    omega

/-- Witness for window_dims_agree_of_aligned: two grid-aligned rasters
with origin offsets of 2 pixels in x and 1 pixel in y. -/
theorem window_dims_agree_witness :
    (movement.window1 dsA1 dsA2).cols = (movement.window2 dsA1 dsA2).cols ∧
      (movement.window1 dsA1 dsA2).rows = (movement.window2 dsA1 dsA2).rows :=
  window_dims_agree_of_aligned dsA1 dsA2 2 1
    (by norm_num [dsA1]) (by norm_num [dsA1])
    (by norm_num [dsA1, dsA2]) (by norm_num [dsA1, dsA2])
    (by norm_num [dsA1, dsA2]) (by norm_num [dsA1, dsA2])

/- Section: claim theorems about the compositor. -/

lemma ReadAsArray_eq_none (ds : movement.Dataset) (xoff yoff xsize ysize : ℤ)
    (h : xsize ≤ 0 ∨ ysize ≤ 0) :
    movement.ReadAsArray ds xoff yoff xsize ysize = none := by
  unfold movement.ReadAsArray
  rw [if_neg]
  rintro ⟨-, -, h3, h4, -⟩
  omega

/-- C3 amended: the source performs no overlap validation. Whenever the
computed intersection window of either raster has non-positive cols or
rows, process_pair reaches the raster accessor with that degenerate
window, the read fails, and the run aborts with the accessor failure
(readError) before any output is assembled; the definitive noOverlap
error of the error taxonomy in the spec is never produced. -/
theorem process_pair_nonpos_window_readError (ds_1 ds_2 : movement.Dataset)
    (h : (movement.window1 ds_1 ds_2).cols ≤ 0 ∨
        (movement.window1 ds_1 ds_2).rows ≤ 0 ∨
        (movement.window2 ds_1 ds_2).cols ≤ 0 ∨
        (movement.window2 ds_1 ds_2).rows ≤ 0) :
    movement.process_pair ds_1 ds_2 = Except.error movement.PPErr.readError := by
  unfold movement.process_pair
  dsimp only
  rcases h with h | h | h | h
  · rw [ReadAsArray_eq_none ds_1 _ _ _ _ (Or.inl h)]
  · rw [ReadAsArray_eq_none ds_1 _ _ _ _ (Or.inr h)]
  · rw [ReadAsArray_eq_none ds_2 _ _ _ _ (Or.inl h)]
    cases movement.ReadAsArray ds_1 (movement.window1 ds_1 ds_2).left
        (movement.window1 ds_1 ds_2).top (movement.window1 ds_1 ds_2).cols
        (movement.window1 ds_1 ds_2).rows <;> rfl
  · rw [ReadAsArray_eq_none ds_2 _ _ _ _ (Or.inr h)]
    cases movement.ReadAsArray ds_1 (movement.window1 ds_1 ds_2).left
        (movement.window1 ds_1 ds_2).top (movement.window1 ds_1 ds_2).cols
        (movement.window1 ds_1 ds_2).rows <;> rfl

/-- Witness for process_pair_nonpos_window_readError on the ground-disjoint
pair (dsN1, dsN2), whose first window has cols = -98. -/
theorem process_pair_nonpos_window_readError_witness :
    (movement.window1 dsN1 dsN2).cols ≤ 0 ∧
      movement.process_pair dsN1 dsN2 = Except.error movement.PPErr.readError := by
  have hc : (movement.window1 dsN1 dsN2).cols ≤ 0 := by
    norm_num [movement.window1, movement.windowOf, movement.interOf,
      movement.intersectB, movement.r_of, dsN1, dsN2, pyRound, max_def, min_def]
  exact ⟨hc, process_pair_nonpos_window_readError dsN1 dsN2 (Or.inl hc)⟩

/-- C3 counterexample: on two rasters whose ground bounds are disjoint,
process_pair aborts with the raster accessor failure, not with the
definitive noOverlap error the spec promises, and the claim that a
no-overlap error is raised is false at this input. -/
theorem process_pair_no_noOverlap_counterexample :
    movement.process_pair dsN1 dsN2 = Except.error movement.PPErr.readError ∧
      movement.process_pair dsN1 dsN2 ≠ Except.error movement.PPErr.noOverlap := by
  have h1 : movement.window1 dsN1 dsN2 = ⟨100, 0, -98, 2⟩ := by
    norm_num [movement.window1, movement.windowOf, movement.interOf,
      movement.intersectB, movement.r_of, dsN1, dsN2, pyRound, max_def, min_def]
  have h2 : movement.window2 dsN1 dsN2 = ⟨0, 0, -98, 2⟩ := by
    norm_num [movement.window2, movement.windowOf, movement.interOf,
      movement.intersectB, movement.r_of, dsN1, dsN2, pyRound, max_def, min_def]
  have heq : movement.process_pair dsN1 dsN2
      = Except.error movement.PPErr.readError := by
    unfold movement.process_pair
    dsimp only
    rw [h1, h2]
    rfl
  refine ⟨heq, ?_⟩
  rw [heq]
  intro hc
  exact movement.PPErr.noConfusion (Except.error.inj hc)

/-- C2: on a successful run of the compositor, the validity mask is 1 at a
pixel position precisely when the alpha (fourth) band of both sampled
windows is 255 there; the mask takes no value other than 0 or 1; and
wherever the mask is 0, every band of both masked arrays and all four
composite output bands (and the gif alpha plane) are 0. -/
theorem process_pair_mask_spec (ds_1 ds_2 : movement.Dataset)
    (a1 a2 : ℕ → ℕ → ℕ → ℕ) (out : movement.PPOut)
    (h1 : movement.ReadAsArray ds_1 (movement.window1 ds_1 ds_2).left
        (movement.window1 ds_1 ds_2).top (movement.window1 ds_1 ds_2).cols
        (movement.window1 ds_1 ds_2).rows = some a1)
    (h2 : movement.ReadAsArray ds_2 (movement.window2 ds_1 ds_2).left
        (movement.window2 ds_1 ds_2).top (movement.window2 ds_1 ds_2).cols
        (movement.window2 ds_1 ds_2).rows = some a2)
    (hok : movement.process_pair ds_1 ds_2 = Except.ok out) :
    (∀ r c, out.mask r c = 1 ↔ (a1 3 r c = 255 ∧ a2 3 r c = 255)) ∧
      (∀ r c, out.mask r c = 0 ∨ out.mask r c = 1) ∧
      (∀ b r c, out.mask r c = 0 → out.array_1 b r c = 0 ∧ out.array_2 b r c = 0) ∧
      (∀ r c, out.mask r c = 0 →
        out.band1 r c = 0 ∧ out.band2 r c = 0 ∧ out.band3 r c = 0 ∧
          out.band4 r c = 0 ∧ out.gifAlpha r c = 0) := by
  unfold movement.process_pair at hok
  dsimp only at hok
  rw [h1, h2] at hok
  injection hok with hout
  subst hout
  dsimp only
  refine ⟨?_, ?_, ?_, ?_⟩
  · intro r c
    by_cases ha : a1 3 r c = 255 <;> by_cases hb : a2 3 r c = 255 <;>
      simp [ha, hb]
  · intro r c
    by_cases ha : a1 3 r c = 255 <;> by_cases hb : a2 3 r c = 255 <;>
      simp [ha, hb]
  · intro b r c hm
    rw [hm, Nat.mul_zero, Nat.mul_zero]
    exact ⟨rfl, rfl⟩
  · intro r c hm
    rw [hm]
    simp

set_option maxRecDepth 10000 in
/-- Witness for process_pair_mask_spec on two identical fully-opaque 2 by 2
rasters: both reads succeed, the run returns the record moutc, and the
mask is 1 where both alpha values are 255. -/
theorem process_pair_mask_spec_witness :
    movement.ReadAsArray dsW1 (movement.window1 dsW1 dsW2).left
        (movement.window1 dsW1 dsW2).top (movement.window1 dsW1 dsW2).cols
        (movement.window1 dsW1 dsW2).rows = some mArr255 ∧
      movement.ReadAsArray dsW2 (movement.window2 dsW1 dsW2).left
        (movement.window2 dsW1 dsW2).top (movement.window2 dsW1 dsW2).cols
        (movement.window2 dsW1 dsW2).rows = some mArr255 ∧
      movement.process_pair dsW1 dsW2 = Except.ok moutc ∧
      moutc.mask 0 0 = 1 := by
  have hw1 : movement.window1 dsW1 dsW2 = ⟨0, 0, 2, 2⟩ := by
    norm_num [movement.window1, movement.windowOf, movement.interOf,
      movement.intersectB, movement.r_of, dsW1, dsW2, pyRound, max_def, min_def]
  have hw2 : movement.window2 dsW1 dsW2 = ⟨0, 0, 2, 2⟩ := by
    norm_num [movement.window2, movement.windowOf, movement.interOf,
      movement.intersectB, movement.r_of, dsW1, dsW2, pyRound, max_def, min_def]
  have h1 : movement.ReadAsArray dsW1 (movement.window1 dsW1 dsW2).left
      (movement.window1 dsW1 dsW2).top (movement.window1 dsW1 dsW2).cols
      (movement.window1 dsW1 dsW2).rows = some mArr255 := by
    rw [hw1]; rfl
  have h2 : movement.ReadAsArray dsW2 (movement.window2 dsW1 dsW2).left
      (movement.window2 dsW1 dsW2).top (movement.window2 dsW1 dsW2).cols
      (movement.window2 dsW1 dsW2).rows = some mArr255 := by
    rw [hw2]; rfl
  have hok : movement.process_pair dsW1 dsW2 = Except.ok moutc := by
    unfold movement.process_pair
    dsimp only
    rw [hw1, hw2]
    rfl
  have hmain := process_pair_mask_spec dsW1 dsW2 mArr255 mArr255 moutc h1 h2 hok
  exact ⟨h1, h2, hok, (hmain.1 0 0).mpr ⟨rfl, rfl⟩⟩

/- Section: claim theorems about the pair matcher. -/

/-- C1: is_pair is truthy precisely when the two records have equal
satellite_id, strip_id and provider, acquired times at most 2.0 seconds
apart, both geometry types Polygon, and intersecting footprints; if any
one of these conditions is violated the result is falsy (False or None,
never True). -/
theorem is_pair_truthy_iff_conditions (i1 i2 : Item) :
    truthy (pairs.is_pair i1 i2) = true ↔
      (i1.properties.satellite_id = i2.properties.satellite_id ∧
        i1.properties.strip_id = i2.properties.strip_id ∧
        i1.properties.provider = i2.properties.provider ∧
        |i1.properties.acquired - i2.properties.acquired| ≤ 2 ∧
        i1.geometry.type = "Polygon" ∧ i2.geometry.type = "Polygon" ∧
        polyIntersects i1.geometry.coordinates.headI i2.geometry.coordinates.headI
          = true) := by
  rw [truthy_eq_true_iff]
  exact is_pair_eq_some_true_iff i1 i2

/-- C5: at the inclusive 2-second boundary (acquired times exactly 2.0
seconds apart) with all other match predicates satisfied, is_pair is
truthy. -/
theorem is_pair_two_second_boundary (i1 i2 : Item)
    (hsat : i1.properties.satellite_id = i2.properties.satellite_id)
    (hstrip : i1.properties.strip_id = i2.properties.strip_id)
    (hprov : i1.properties.provider = i2.properties.provider)
    (ht : |i1.properties.acquired - i2.properties.acquired| = 2)
    (hg1 : i1.geometry.type = "Polygon") (hg2 : i2.geometry.type = "Polygon")
    (hint : polyIntersects i1.geometry.coordinates.headI
        i2.geometry.coordinates.headI = true) :
    truthy (pairs.is_pair i1 i2) = true := by
  rw [truthy_eq_true_iff, is_pair_eq_some_true_iff]
  exact ⟨hsat, hstrip, hprov, le_of_eq ht, hg1, hg2, hint⟩

/-- Witness for is_pair_two_second_boundary: two items with identical ids
and footprint, acquired at t = 0 s and t = 2 s exactly. -/
theorem is_pair_two_second_boundary_witness :
    |itemA.properties.acquired - itemB.properties.acquired| = 2 ∧
      truthy (pairs.is_pair itemA itemB) = true := by
  have ht : |itemA.properties.acquired - itemB.properties.acquired| = 2 := by
    norm_num [itemA, itemB]
  have hint : polyIntersects itemA.geometry.coordinates.headI
      itemB.geometry.coordinates.headI = true := by
    norm_num [itemA, itemB, triP, polyIntersects, edgesOf, segInter, straddles,
      bboxOverlap, overlap1D, cross, min_def, max_def]
  exact ⟨ht, is_pair_two_second_boundary itemA itemB rfl rfl rfl ht rfl rfl hint⟩

/-- C8: a non-Polygon geometry type on either record makes is_pair return
the definitive non-match some false (no error is raised: the result is an
ordinary value), and find_pairs never emits such a combination. -/
theorem is_pair_non_polygon_non_match (i1 i2 : Item)
    (h : ¬i1.geometry.type = "Polygon" ∨ ¬i2.geometry.type = "Polygon") :
    pairs.is_pair i1 i2 = some false ∧
      ∀ l : List Item, (i1, i2) ∉ pairs.find_pairs l := by
  have hfalse : pairs.is_pair i1 i2 = some false := by
    unfold pairs.is_pair
    dsimp only
    split_ifs with h1 h2
    · rfl
    · rfl
    · rfl
  refine ⟨hfalse, ?_⟩
  intro l hmem
  rw [find_pairs_eq_rec, findPairsRec_eq_filter] at hmem
  have htr := (List.mem_filter.mp hmem).2
  dsimp only at htr
  rw [truthy_eq_true_iff, hfalse] at htr
  exact absurd htr (by decide)

/-- Witness for is_pair_non_polygon_non_match: two Point-geometry items. -/
theorem is_pair_non_polygon_non_match_witness :
    (¬itemP.geometry.type = "Polygon" ∨ ¬itemQ.geometry.type = "Polygon") ∧
      pairs.is_pair itemP itemQ = some false :=
  ⟨Or.inl (by decide),
    (is_pair_non_polygon_non_match itemP itemQ (Or.inl (by decide))).1⟩

/-- C9: is_pair yields the implicit Python None (the third value of its
Option Bool interface, beside some true and some false) precisely when the
identity, time and geometry-type checks all pass but the footprints do not
intersect: the non-intersecting case is the only one distinguished by
None. -/
theorem is_pair_none_iff_disjoint_footprints (i1 i2 : Item) :
    pairs.is_pair i1 i2 = none ↔
      (i1.properties.satellite_id = i2.properties.satellite_id ∧
        i1.properties.strip_id = i2.properties.strip_id ∧
        i1.properties.provider = i2.properties.provider ∧
        |i1.properties.acquired - i2.properties.acquired| ≤ 2 ∧
        i1.geometry.type = "Polygon" ∧ i2.geometry.type = "Polygon" ∧
        polyIntersects i1.geometry.coordinates.headI i2.geometry.coordinates.headI
          = false) :=
  is_pair_eq_none_iff i1 i2

/-- C10: is_pair is truthy on (A, B) exactly when it is truthy on (B, A):
every match predicate (field equality, absolute time difference, geometry
type, polygon intersection) is symmetric. -/
theorem is_pair_truthy_symm (i1 i2 : Item) :
    truthy (pairs.is_pair i1 i2) = truthy (pairs.is_pair i2 i1) := by
  rw [is_pair_comm]

/-- C4: find_pairs is the filter of the truthy is_pair test over exactly
the n*(n-1)/2 index-ordered combinations of the n input items: the
emitted pairs are those combinations (A before B in input order) passing
the test, the combination list has length n*(n-1)/2, every combination is
index-ordered (i < j), and no combination appears twice or reversed. -/
theorem find_pairs_combination_semantics (l : List Item) :
    pairs.find_pairs l =
        ((allCombos (List.range l.length)).map
            (fun p => (l.getD p.1 default, l.getD p.2 default))).filter
          (fun p => truthy (pairs.is_pair p.1 p.2)) ∧
      (allCombos (List.range l.length)).length = l.length * (l.length - 1) / 2 ∧
      (∀ p ∈ allCombos (List.range l.length), p.1 < p.2) ∧
      (allCombos (List.range l.length)).Nodup := by
  refine ⟨?_, ?_, allCombos_mem_lt _ (List.pairwise_lt_range _),
    allCombos_nodup _ (List.nodup_range _)⟩
  · have hl : allCombos l =
        (allCombos (List.range l.length)).map
          (fun p => (l.getD p.1 default, l.getD p.2 default)) := by
      conv_lhs => rw [← range_map_getD l default]
      rw [allCombos_map]
    rw [find_pairs_eq_rec, findPairsRec_eq_filter, hl]
  · have h2 := allCombos_length (List.range l.length)
    rw [List.length_range] at h2
    omega
